import Mathlib

/-!
# Verification of the Brecho (EcoFashion) cart/order core

Shallow embedding of the cart-to-order subsystem of the Brecho storefront:
the SQLite schema created by `initDatabase` (src/api/config/database.js),
the Cart model (src/api/models/Cart.js), the Order model
(src/api/models/Order.js), `Product.updateStock`
(src/api/models/Product.js) and the checkout coordinator
`OrderController.create` (src/api/controllers/OrderController.js).

Modelling conventions:
* Every JavaScript number (id, quantity, stock, price) is a rational `ℚ`.
* A database is four in-memory tables (lists of typed rows) plus the
  `AUTOINCREMENT` counters the inserts consume.  Timestamp columns and
  display-only columns (images, description, seller name, category name)
  carry no logic in the verified operations and are omitted from the row
  types; the full schema column-name lists are kept, because SQLite
  resolves column references against them.
* A JavaScript value that may be `undefined` is an `Option`; reads of
  absent object properties return `none`, and comparison operators on
  `undefined` follow JS semantics (`x > undefined` is `false`,
  `undefined !== s` is `true`).
* SQLite refuses to prepare a statement that references a column the
  schema does not define ("no such column").  Each embedded query
  carries the list of `products` columns its SQL references, checked
  against the schema's column list; a failed check is the driver
  rejection that `runQuery`/`getRow`/`getAllRows` surface as an error.
* A fallible operation returns `Except JsError α`; a mutating operation
  additionally returns the post-state database (errors thrown after a
  write keep the write, as in the source).
-/

/-- A JavaScript runtime failure surfaced by the API's catch blocks. -/
inductive JsError where
  /-- Raised by a `throw new Error(msg)` statement in model code. -/
  | thrown (msg : String)
  /-- A rejection from the SQLite driver (e.g. "no such column"). -/
  | storage (msg : String)
  /-- A TypeError (calling a missing method, iterating `undefined`, ...). -/
  | typeError (msg : String)
deriving Repr, DecidableEq

/-- A row of the `products` table (database.js lines 51-73): the columns the
cart/order logic reads.  Note the stock column is named `stock`. -/
structure ProductRow where
  id : ℚ
  name : String
  price : ℚ
  stock : ℚ
  status : String
deriving Repr, DecidableEq

/-- A row of the `cart` table (database.js lines 104-115). -/
structure CartRow where
  id : ℚ
  user_id : ℚ
  product_id : ℚ
  quantity : ℚ
deriving Repr, DecidableEq

/-- A row of the `orders` table (database.js lines 76-89). -/
structure OrderRow where
  id : ℚ
  user_id : ℚ
  total_amount : ℚ
  status : String
  shipping_address : Option String
  payment_method : Option String
  payment_status : String
  notes : Option String
deriving Repr, DecidableEq

/-- A row of the `order_items` table (database.js lines 92-102). -/
structure OrderItemRow where
  id : ℚ
  order_id : ℚ
  product_id : ℚ
  quantity : ℚ
  price : ℚ
deriving Repr, DecidableEq

/-- The persistent store: the four tables the cart/order core touches,
plus the `AUTOINCREMENT` counters. -/
structure DB where
  products : List ProductRow
  cart : List CartRow
  orders : List OrderRow
  order_items : List OrderItemRow
  nextCartId : ℚ
  nextOrderId : ℚ
  nextOrderItemId : ℚ
deriving Repr, DecidableEq

/-- Column names of the `products` table as created by `initDatabase`
(database.js lines 51-73). -/
def productsColumns : List String :=
  ["id", "name", "description", "price", "original_price", "category_id",
   "brand", "size", "condition", "color", "material", "images", "stock",
   "status", "seller_id", "created_at", "updated_at"]

/-- SQLite prepares a statement only when every referenced column exists;
this checks a query's `products` column references against the schema. -/
def sqlProductRefsOk (refs : List String) : Bool :=
  refs.all (fun c => productsColumns.contains c)

/-- JS read of a numeric property from a `products` row object as delivered
by the driver (`SELECT *`): only schema columns are present, any other
property is `undefined` (`none`). -/
def ProductRow.numCol (p : ProductRow) (c : String) : Option ℚ :=
  if c = "id" then some p.id
  else if c = "price" then some p.price
  else if c = "stock" then some p.stock
  else none

/-- JS read of a string property from a `products` row object. -/
def ProductRow.strCol (p : ProductRow) (c : String) : Option String :=
  if c = "name" then some p.name
  else if c = "status" then some p.status
  else none

/-- JS `a > b` where either side may be `undefined`: any comparison
against `undefined` is `NaN`-driven and yields `false`. -/
def jsGt (a b : Option ℚ) : Bool :=
  match a, b with
  | some x, some y => decide (x > y)
  | _, _ => false

/-- JS `a * b` with `undefined` propagating as `NaN` (`none`). -/
def jsMul (a b : Option ℚ) : Option ℚ :=
  match a, b with
  | some x, some y => some (x * y)
  | _, _ => none

/-- JS `a + b` with `undefined` propagating as `NaN` (`none`). -/
def jsAdd (a b : Option ℚ) : Option ℚ :=
  match a, b with
  | some x, some y => some (x + y)
  | _, _ => none

/-- JS template-string rendering of a possibly-undefined string. -/
def jsStr (a : Option String) : String :=
  match a with
  | some s => s
  | none => "undefined"

/-- JS template-string rendering of a possibly-undefined number. -/
def jsNumStr (a : Option ℚ) : String :=
  match a with
  | some q => toString q
  | none => "undefined"

/-- JS truthiness of a possibly-undefined string (`undefined` and the
empty string are falsy). -/
def jsTruthy (a : Option String) : Bool :=
  match a with
  | some s => decide (s ≠ "")
  | none => false

/-- Embeds `SELECT * FROM products WHERE id = ? AND status = "available"`
(Cart.js lines 15-16 and 151-152; the double-quoted `"available"` falls
back to a string literal in SQLite). -/
def findAvailableProduct (db : DB) (productId : ℚ) : Option ProductRow :=
  db.products.find? (fun p => p.id = productId ∧ p.status = "available")

/-- Embeds `WHERE c.user_id = ? AND c.product_id = ?` on the cart table. -/
def findCartRow (db : DB) (userId productId : ℚ) : Option CartRow :=
  db.cart.find? (fun c => c.user_id = userId ∧ c.product_id = productId)

/-- Embeds `LEFT JOIN products p ON c.product_id = p.id`. -/
def findProduct (db : DB) (productId : ℚ) : Option ProductRow :=
  db.products.find? (fun p => p.id = productId)

/-- The cart-item object built by `Cart.getItem` (Cart.js lines 53-86):
a cart row with product fields joined in (nullable via the LEFT JOIN). -/
structure CartItem where
  id : ℚ
  user_id : ℚ
  product_id : ℚ
  quantity : ℚ
  product_name : Option String
  price : Option ℚ
  stock_quantity : Option ℚ
  product_status : Option String
deriving Repr, DecidableEq

/-- Columns of `products` referenced by the SQL of `Cart.getItem`
(Cart.js lines 54-62): `p.name, p.price, p.images, p.stock_quantity,
p.status` in the SELECT list, `p.id` and `p.seller_id` in the joins. -/
def getItemProductRefs : List String :=
  ["name", "price", "images", "stock_quantity", "status", "id", "seller_id"]

/-- Embeds `Cart.getItem` (Cart.js lines 53-86): fetch one cart row with the
product joined in, or `null` when the user has no line for the product.  The
SELECT list names `p.stock_quantity`, which the `products` schema does not
define, so the driver rejects the statement. -/
def Cart.getItem (db : DB) (userId productId : ℚ) :
    Except JsError (Option CartItem) :=
  if sqlProductRefsOk getItemProductRefs then
    .ok ((findCartRow db userId productId).map (fun c =>
      let p := findProduct db c.product_id
      { id := c.id, user_id := c.user_id, product_id := c.product_id,
        quantity := c.quantity,
        product_name := p.bind (fun pr => pr.strCol ("name")),
        price := p.bind (fun pr => pr.numCol ("price")),
        stock_quantity := p.bind (fun pr => pr.numCol ("stock_quantity")),
        product_status := p.bind (fun pr => pr.strCol ("status")) }))
  else
    .error (.storage ("no such column: p.stock_quantity"))

/-- One line of the cart view built by `Cart.getByUser`
(Cart.js lines 104-128): a joined cart row plus its computed
`item_total = price * quantity`. -/
structure CartLineView where
  id : ℚ
  user_id : ℚ
  product_id : ℚ
  quantity : ℚ
  product_name : Option String
  price : Option ℚ
  stock_quantity : Option ℚ
  product_status : Option String
  item_total : Option ℚ
deriving Repr, DecidableEq

/-- The object `Cart.getByUser` returns (Cart.js lines 134-141):
`{ items, summary: { item_count, subtotal, total } }` flattened. -/
structure CartView where
  items : List CartLineView
  item_count : ℚ
  subtotal : Option ℚ
  total : Option ℚ
deriving Repr, DecidableEq

/-- The object returned by `getByUser` has only the fields `items` and
`summary`; a JS read of `.length` on it yields `undefined`. -/
def CartView.jsLength (_ : CartView) : Option ℚ := none

/-- Columns of `products` referenced by the SQL of `Cart.getByUser`
(Cart.js lines 90-100): the same SELECT list as `getItem` plus
`p.category_id` (join) and `p.status` in the WHERE clause. -/
def getByUserProductRefs : List String :=
  ["name", "price", "images", "stock_quantity", "status", "id",
   "seller_id", "category_id"]

/-- Embeds `Cart.getByUser` (Cart.js lines 89-142): all of the user's cart
rows joined with live product data, restricted by
`WHERE p.status = 'available'`, with per-line `item_total` and the summary
totals.  Its SELECT list also names `p.stock_quantity`, so the driver
rejects the statement. -/
def Cart.getByUser (db : DB) (userId : ℚ) : Except JsError CartView :=
  if sqlProductRefsOk getByUserProductRefs then
    let lines := (db.cart.filter (fun c => c.user_id = userId)).filterMap
      (fun c =>
        match findProduct db c.product_id with
        | some p =>
          if p.status = "available" then
            some { id := c.id, user_id := c.user_id,
                   product_id := c.product_id, quantity := c.quantity,
                   product_name := p.strCol ("name"),
                   price := p.numCol ("price"),
                   stock_quantity := p.numCol ("stock_quantity"),
                   product_status := p.strCol ("status"),
                   item_total :=
                     jsMul (p.numCol ("price")) (some c.quantity) : CartLineView }
          else none
        | none => none)
    .ok { items := lines,
          item_count := lines.foldl (fun s l => s + l.quantity) 0,
          subtotal := lines.foldl (fun s l => jsAdd s l.item_total) (some 0),
          total := lines.foldl (fun s l => jsAdd s l.item_total) (some 0) }
  else
    .error (.storage ("no such column: p.stock_quantity"))

/-- Embeds `Cart.removeItem` (Cart.js lines 173-177):
`DELETE FROM cart WHERE user_id = ? AND product_id = ?`, returning
`changes > 0`. -/
def Cart.removeItem (db : DB) (userId productId : ℚ) : Bool × DB :=
  let remaining := db.cart.filter
    (fun c => ¬ (c.user_id = userId ∧ c.product_id = productId))
  (decide (remaining.length < db.cart.length), { db with cart := remaining })

/-- Embeds `Cart.clearCart` (Cart.js lines 180-184):
`DELETE FROM cart WHERE user_id = ?`, returning the number of rows
removed. -/
def Cart.clearCart (db : DB) (userId : ℚ) : ℚ × DB :=
  let remaining := db.cart.filter (fun c => ¬ c.user_id = userId)
  ((db.cart.length - remaining.length : ℕ), { db with cart := remaining })

/-- What a Cart write returns to its caller: `removeItem`'s boolean or
`getItem`'s item-or-null (`updateQuantity` and `addItem` end in one of
the two). -/
inductive CartWriteResult where
  | removed (changed : Bool)
  | item (it : Option CartItem)
deriving Repr, DecidableEq

/-- Columns of `products` referenced by the stock query of
`Cart.updateQuantity` (Cart.js line 151):
`SELECT stock_quantity FROM products WHERE id = ? AND status = "available"`. -/
def updateQuantityProductRefs : List String := ["stock_quantity", "id", "status"]

/-- Embeds `Cart.updateQuantity` (Cart.js lines 145-170).  `qty ≤ 0`
delegates to `removeItem`; otherwise the stock query runs first — and its
SELECT list names `stock_quantity`, a column the `products` schema does not
define, so the driver rejects it before any row is updated. -/
def Cart.updateQuantity (db : DB) (userId productId quantity : ℚ) :
    Except JsError CartWriteResult × DB :=
  if quantity ≤ 0 then
    let (b, db') := Cart.removeItem db userId productId
    (.ok (.removed b), db')
  else if sqlProductRefsOk updateQuantityProductRefs then
    match findAvailableProduct db productId with
    | none => (.error (.thrown ("Produto não encontrado ou não disponível")), db)
    | some product =>
      if jsGt (some quantity) (product.numCol ("stock_quantity")) then
        (.error (.thrown ("Quantidade solicitada excede o estoque disponível")), db)
      else
        let db' := { db with cart := db.cart.map (fun c =>
          if c.user_id = userId ∧ c.product_id = productId then
            { c with quantity := quantity }
          else c) }
        match Cart.getItem db' userId productId with
        | .error e => (.error e, db')
        | .ok it => (.ok (.item it), db')
  else
    (.error (.storage ("no such column: stock_quantity")), db)

/-- Embeds `Cart.addItem` (Cart.js lines 13-50): require an available
product, then read the existing line via `Cart.getItem` (whose statement the
driver rejects, see `Cart.getItem`); accumulate into `updateQuantity` or
insert a fresh row, bounding the new quantity by `product.stock_quantity` —
a property the `SELECT *` row does not carry (the column is `stock`). -/
def Cart.addItem (db : DB) (userId productId quantity : ℚ) :
    Except JsError CartWriteResult × DB :=
  match findAvailableProduct db productId with
  | none => (.error (.thrown ("Produto não encontrado ou não disponível")), db)
  | some product =>
    match Cart.getItem db userId productId with
    | .error e => (.error e, db)
    | .ok existing =>
      match existing with
      | some item =>
        let newQuantity := item.quantity + quantity
        if jsGt (some newQuantity) (product.numCol ("stock_quantity")) then
          (.error (.thrown ("Quantidade solicitada excede o estoque disponível")), db)
        else
          Cart.updateQuantity db userId productId newQuantity
      | none =>
        if jsGt (some quantity) (product.numCol ("stock_quantity")) then
          (.error (.thrown ("Quantidade solicitada excede o estoque disponível")), db)
        else
          let row : CartRow :=
            { id := db.nextCartId, user_id := userId,
              product_id := productId, quantity := quantity }
          let db' := { db with cart := db.cart ++ [row],
                               nextCartId := db.nextCartId + 1 }
          match Cart.getItem db' userId productId with
          | .error e => (.error e, db')
          | .ok it => (.ok (.item it), db')

/-- The object `Cart.validateCart` returns (Cart.js lines 217-238):
`{ valid, errors }`, plus the cart view on the non-empty path. -/
structure ValidateResult where
  valid : Bool
  errors : List String
  cart : Option CartView
deriving Repr, DecidableEq

/-- The validation object has fields `valid`, `errors`, `cart`; a JS read
of `.issues` on it yields `undefined`. -/
def ValidateResult.issues (_ : ValidateResult) : Option (List String) := none

/-- The two violation messages one cart line can contribute
(Cart.js lines 222-232). -/
def lineViolations (item : CartLineView) : List String :=
  (if item.product_status ≠ some "available" then
    ["Produto \"" ++ jsStr item.product_name ++ "\" não está mais disponível"]
  else []) ++
  (if jsGt (some item.quantity) item.stock_quantity then
    ["Quantidade solicitada para \"" ++ jsStr item.product_name ++
     "\" excede o estoque (" ++ jsNumStr item.stock_quantity ++ " disponível)"]
  else [])

/-- Embeds `Cart.validateCart` (Cart.js lines 213-239): load the cart view,
report "Carrinho está vazio" when it has no lines, else collect per-line
violations and an overall boolean. -/
def Cart.validateCart (db : DB) (userId : ℚ) : Except JsError ValidateResult :=
  match Cart.getByUser db userId with
  | .error e => .error e
  | .ok cart =>
    if cart.items.length = 0 then
      .ok { valid := false, errors := ["Carrinho está vazio"], cart := none }
    else
      let errs := cart.items.foldl (fun acc item => acc ++ lineViolations item) []
      .ok { valid := errs.isEmpty, errors := errs, cart := some cart }

/-- The materialized order `Order.findById` returns (Order.js lines 62-81):
the order row together with its order-item rows (the join's display
fields — user name, product name, images — carry no logic and are
omitted). -/
structure OrderView where
  row : OrderRow
  items : List OrderItemRow
deriving Repr, DecidableEq

/-- Embeds `Order.findById` (Order.js lines 62-81). -/
def Order.findById (db : DB) (id : ℚ) : Option OrderView :=
  (db.orders.find? (fun o => o.id = id)).map (fun o =>
    { row := o, items := db.order_items.filter (fun it => it.order_id = id) })

/-- One element of the `items` array `Order.create` destructures:
`{product_id, quantity, price}`. -/
structure OrderLineInput where
  product_id : ℚ
  quantity : ℚ
  price : ℚ
deriving Repr, DecidableEq

/-- The single argument of `Order.create` (Order.js lines 18-25).  `items`
is `Option`: a caller that builds the object without an `items` field (as
`OrderController.create` does) passes `undefined` there. -/
structure OrderCreateInput where
  user_id : ℚ
  items : Option (List OrderLineInput)
  shipping_address : Option String
  payment_method : Option String
  notes : Option String
deriving Repr, DecidableEq

/-- The order-items insert loop of `Order.create` (Order.js lines 50-56),
threading the store and collecting the inserted rows. -/
def insertOrderItems (orderId : ℚ) (items : List OrderLineInput) (db : DB) : DB :=
  match items with
  | [] => db
  | it :: rest =>
    let irow : OrderItemRow :=
      { id := db.nextOrderItemId, order_id := orderId,
        product_id := it.product_id, quantity := it.quantity,
        price := it.price }
    insertOrderItems orderId rest
      { db with order_items := db.order_items ++ [irow],
                nextOrderItemId := db.nextOrderItemId + 1 }

/-- Embeds `Order.create` (Order.js lines 18-59): sum
`total_amount = Σ price × quantity` over the supplied items, insert one
orders row (status and payment_status take their schema defaults
`'pending'`), insert one order_items row per item, and return
`Order.findById` of the new id.  Iterating an absent `items` field is the
JS TypeError the controller's catch block would see. -/
def Order.create (db : DB) (inp : OrderCreateInput) :
    Except JsError (Option OrderView) × DB :=
  match inp.items with
  | none => (.error (.typeError ("items is not iterable")), db)
  | some items =>
    let total := items.foldl (fun acc it => acc + it.price * it.quantity) 0
    let orderId := db.nextOrderId
    let row : OrderRow :=
      { id := orderId, user_id := inp.user_id, total_amount := total,
        status := "pending", shipping_address := inp.shipping_address,
        payment_method := inp.payment_method, payment_status := "pending",
        notes := inp.notes }
    let db1 := { db with orders := db.orders ++ [row],
                         nextOrderId := orderId + 1 }
    let db2 := insertOrderItems orderId items db1
    (.ok (Order.findById db2 orderId), db2)

/-- The status values `Order.updateStatus` accepts (Order.js line 232). -/
def validStatuses : List String :=
  ["pending", "confirmed", "processing", "shipped", "delivered", "cancelled"]

/-- The per-row effect of the UPDATE statement of `Order.updateStatus`
(Order.js lines 238-249): the row with the given id takes the new status,
and the new notes when the notes argument is truthy. -/
def setStatusRow (id : ℚ) (status : String) (notes : Option String)
    (o : OrderRow) : OrderRow :=
  if o.id = id then
    { o with status := status,
             notes := if jsTruthy notes then notes else o.notes }
  else o

/-- The post-state of the UPDATE statement of `Order.updateStatus`. -/
def setStatusDB (db : DB) (id : ℚ) (status : String)
    (notes : Option String) : DB :=
  { db with orders := db.orders.map (setStatusRow id status notes) }

/-- Embeds `Order.updateStatus` (Order.js lines 231-251): reject unknown
status values, update the order's status (and notes when the notes argument
is truthy), and return `Order.findById`. -/
def Order.updateStatus (db : DB) (id : ℚ) (status : String)
    (notes : Option String) : Except JsError (Option OrderView) × DB :=
  if validStatuses.contains status then
    (.ok (Order.findById (setStatusDB db id status notes) id),
     setStatusDB db id status notes)
  else
    (.error (.thrown ("Status inválido")), db)

/-- The notes string `Order.cancel` records (Order.js line 282):
`reason ? 'Cancelado: reason' : 'Pedido cancelado'`. -/
def cancelNotes (reason : Option String) : String :=
  if jsTruthy reason then ("Cancelado: " ++ reason.getD ("")) else ("Pedido cancelado")

/-- Embeds `Order.cancel` (Order.js lines 272-284): load the order, refuse
when its status is `delivered` or `cancelled`, otherwise set status to
`cancelled` with the reason recorded in notes. -/
def Order.cancel (db : DB) (id : ℚ) (reason : Option String) :
    Except JsError (Option OrderView) × DB :=
  match Order.findById db id with
  | none => (.error (.thrown ("Pedido não encontrado")), db)
  | some orderView =>
    if orderView.row.status = "delivered" ∨ orderView.row.status = "cancelled" then
      (.error (.thrown ("Não é possível cancelar este pedido")), db)
    else
      Order.updateStatus db id ("cancelled") (some (cancelNotes reason))

/-- Embeds `Product.updateStock` (Product.js lines 426-430):
`UPDATE products SET stock = ? WHERE id = ?`, returning `changes > 0`. -/
def Product.updateStock (db : DB) (id quantity : ℚ) : Bool × DB :=
  (decide ((db.products.find? (fun p => p.id = id)).isSome),
   { db with products := db.products.map (fun p =>
       if p.id = id then { p with stock := quantity } else p) })

/-- Method `Cart.getTotal` is called by `OrderController.create` (line 43) but the
Cart model defines no such method (`getCartTotal` is the closest): the call
raises a TypeError. -/
def Cart.getTotal (_ : DB) (_ : ℚ) : Except JsError ℚ :=
  .error (.typeError ("Cart.getTotal is not a function"))

/-- Method `Cart.clear` is called by `OrderController.create` (line 59) but the
Cart model defines no such method (`clearCart` is the closest): the call
raises a TypeError. -/
def Cart.clear (_ : DB) (_ : ℚ) : Except JsError ℚ :=
  .error (.typeError ("Cart.clear is not a function"))

/-- JS strict equality `x === 0` where `x` may be `undefined`. -/
def jsStrictEqZero (a : Option ℚ) : Bool :=
  match a with
  | some x => decide (x = 0)
  | none => false

/-- The HTTP outcome of `POST /orders` as `OrderController.create` builds
it (OrderController.js lines 8-74). -/
inductive CheckoutResult where
  /-- HTTP 400 with message "Carrinho está vazio". -/
  | emptyCart
  /-- HTTP 400 with message "Carrinho inválido" and `details: validation.issues`. -/
  | cartInvalid (details : Option (List String))
  /-- HTTP 201 with the created order. -/
  | created (o : Option OrderView)
  /-- HTTP 500 "Erro interno do servidor" from the catch block. -/
  | serverError (e : JsError)
deriving Repr, DecidableEq

/-- Embeds `OrderController.create` (OrderController.js lines 8-74), the
checkout coordinator: load the cart view, test `cartItems.length === 0`
(a read of `.length` on the `{items, summary}` object), validate, read
the total via `Cart.getTotal`, create the order from `orderData` (built
without an `items` field) and clear the cart via `Cart.clear`; any raised
error lands in the catch block as a 500. -/
def OrderController.create (db : DB) (userId : ℚ)
    (shipping payment notes : Option String) : CheckoutResult × DB :=
  match Cart.getByUser db userId with
  | .error e => (.serverError e, db)
  | .ok cartItems =>
    if jsStrictEqZero cartItems.jsLength then (.emptyCart, db)
    else
      match Cart.validateCart db userId with
      | .error e => (.serverError e, db)
      | .ok validation =>
        if !validation.valid then (.cartInvalid validation.issues, db)
        else
          match Cart.getTotal db userId with
          | .error e => (.serverError e, db)
          | .ok _total =>
            let inp : OrderCreateInput :=
              { user_id := userId, items := none,
                shipping_address := shipping, payment_method := payment,
                notes := notes }
            match Order.create db inp with
            | (.error e, db') => (.serverError e, db')
            | (.ok order, db') =>
              match Cart.clear db' userId with
              | .error e => (.serverError e, db')
              | .ok _ => (.created order, db')

/-- The Cart Engine data invariant claimed by the spec: every stored cart
line has a positive quantity. -/
def CartInv (db : DB) : Prop := ∀ c ∈ db.cart, 1 ≤ c.quantity

/-- A store with the spec's valid two-line cart: user 7 holds product 1
(price 10.00, stock 5) with quantity 2 and product 2 (price 5.50, stock 4)
with quantity 1. -/
def dbCheckout : DB :=
  { products := [⟨1, "Produto A", 10, 5, "available"⟩,
                 ⟨2, "Produto B", 5.5, 4, "available"⟩],
    cart := [⟨1, 7, 1, 2⟩, ⟨2, 7, 2, 1⟩],
    orders := [], order_items := [],
    nextCartId := 3, nextOrderId := 1, nextOrderItemId := 1 }

/-- A store where user 7's single cart line asks for quantity 5 of a
product whose current stock is 3. -/
def dbOverstock : DB :=
  { products := [⟨1, "Produto A", 10, 3, "available"⟩],
    cart := [⟨1, 7, 1, 5⟩],
    orders := [], order_items := [],
    nextCartId := 2, nextOrderId := 1, nextOrderItemId := 1 }

/-- A store where user 7 has no cart lines at all. -/
def dbEmptyCart : DB :=
  { products := [⟨1, "Produto A", 10, 3, "available"⟩],
    cart := [], orders := [], order_items := [],
    nextCartId := 1, nextOrderId := 1, nextOrderItemId := 1 }

/-- A store with one available product (stock 3) and an empty cart, for
exercising `Cart.addItem`. -/
def dbAddItem : DB :=
  { products := [⟨1, "Vestido", 10, 3, "available"⟩],
    cart := [], orders := [], order_items := [],
    nextCartId := 1, nextOrderId := 1, nextOrderItemId := 1 }

/-- A store with one available product (stock 3) and no cart line for
user 7, for exercising `Cart.updateQuantity` on an absent line. -/
def dbNoLine : DB :=
  { products := [⟨1, "Calça", 10, 3, "available"⟩],
    cart := [], orders := [], order_items := [],
    nextCartId := 1, nextOrderId := 1, nextOrderItemId := 1 }

/-- A store holding one order with status `pending` (and payment status
`pending`), for exercising `Order.cancel`. -/
def dbPending : DB :=
  { products := [], cart := [],
    orders := [⟨1, 7, 100, "pending", some ("Rua A, 1"), some ("pix"),
                "pending", none⟩],
    order_items := [⟨1, 1, 3, 2, 50⟩],
    nextCartId := 1, nextOrderId := 2, nextOrderItemId := 2 }

/-- The materialized view of the pending order stored in `dbPending`. -/
def pendingView : OrderView :=
  ⟨⟨1, 7, 100, "pending", some ("Rua A, 1"), some ("pix"), "pending", none⟩,
   [⟨1, 1, 3, 2, 50⟩]⟩

/-- A store whose single cart line (user 7, product 1, quantity 2)
satisfies the quantity invariant. -/
def dbInv : DB :=
  { products := [⟨1, "Saia", 10, 3, "available"⟩],
    cart := [⟨1, 7, 1, 2⟩],
    orders := [], order_items := [],
    nextCartId := 2, nextOrderId := 1, nextOrderItemId := 1 }

/-- An `Order.create` argument with two price-frozen lines:
product 1 at price 10.00 × quantity 2 and product 2 at price 5.50 ×
quantity 1. -/
def inpCreate : OrderCreateInput :=
  { user_id := 7, items := some [⟨1, 2, 10⟩, ⟨2, 1, 5.5⟩],
    shipping_address := some ("Rua das Flores, 1"),
    payment_method := some ("pix"), notes := none }

/-- For every store and user/product pair, `Cart.getItem` is rejected by
the driver: its SELECT list names `p.stock_quantity`, absent from the
products schema. -/
theorem getItem_error (db : DB) (u p : ℚ) :
    Cart.getItem db u p
      = .error (.storage ("no such column: p.stock_quantity")) := rfl

/-- For every store and user, `Cart.getByUser` is rejected by the driver
for the same reason as `Cart.getItem`. -/
theorem getByUser_error (db : DB) (u : ℚ) :
    Cart.getByUser db u
      = .error (.storage ("no such column: p.stock_quantity")) := rfl

/-- For a positive quantity, `Cart.updateQuantity` runs its stock query,
which the driver rejects, and the store is left unchanged. -/
theorem updateQuantity_pos_error (db : DB) (u p q : ℚ) (h : ¬ q ≤ 0) :
    Cart.updateQuantity db u p q
      = (.error (.storage ("no such column: stock_quantity")), db) := by
  unfold Cart.updateQuantity
  rw [if_neg h]
  exact if_neg (by decide)

/-- The cart table after `Cart.removeItem`: the rows for the given
user/product pair are gone and nothing else changed. -/
theorem removeItem_cart (db : DB) (u p : ℚ) :
    (Cart.removeItem db u p).2.cart
      = db.cart.filter (fun c => ¬ (c.user_id = u ∧ c.product_id = p)) := rfl

/-- The cart table after `Cart.clearCart`: the user's rows are gone. -/
theorem clearCart_cart (db : DB) (u : ℚ) :
    (Cart.clearCart db u).2.cart
      = db.cart.filter (fun c => ¬ c.user_id = u) := rfl

/-- Whatever its arguments, `Cart.addItem` never changes the store: it
fails on a missing or unavailable product, and otherwise the `getItem`
read fails before any insert or update runs. -/
theorem addItem_state_eq (db : DB) (u p q : ℚ) :
    (Cart.addItem db u p q).2 = db := by
  unfold Cart.addItem
  cases hf : findAvailableProduct db p <;> simp [getItem_error]

/-- For a non-positive quantity, `Cart.updateQuantity` delegates to
`Cart.removeItem`, so both leave the same store. -/
theorem updateQuantity_nonpos_eq (db : DB) (u p q : ℚ) (h : q ≤ 0) :
    (Cart.updateQuantity db u p q).2 = (Cart.removeItem db u p).2 := by
  unfold Cart.updateQuantity
  rw [if_pos h]

/-- The notes string recorded by `Order.cancel` is never empty, so the
notes clause of the UPDATE always fires. -/
theorem cancelNotes_ne_empty (reason : Option String) : cancelNotes reason ≠ "" := by
  unfold cancelNotes
  by_cases hr : jsTruthy reason
  · rw [if_pos hr]
    intro hcontra
    have : ("Cancelado: " ++ reason.getD ("")).data = "".data := by rw [hcontra]
    simp [String.data_append] at this
  · rw [if_neg hr]
    decide

/-- Searching a mapped orders list with a predicate the map preserves is
searching the original list and mapping the hit. -/
theorem orders_find?_map_pred (l : List OrderRow) (f : OrderRow → OrderRow)
    (p : OrderRow → Bool) (hf : ∀ o, p (f o) = p o) :
    (l.map f).find? p = (l.find? p).map f := by
  have hpf : (p ∘ f) = p := funext hf
  rw [List.find?_map, hpf]

/-- On a known status value, `Order.updateStatus` runs its UPDATE and
returns the reloaded order. -/
theorem updateStatus_valid (db : DB) (id : ℚ) (st : String) (n : Option String)
    (h : validStatuses.contains st = true) :
    Order.updateStatus db id st n
      = (.ok (Order.findById (setStatusDB db id st n) id),
         setStatusDB db id st n) := by
  unfold Order.updateStatus
  rw [if_pos h]

/-- Unfolding `Order.cancel` once the order lookup is known. -/
theorem cancel_eq_of_findById (db : DB) (id : ℚ) (reason : Option String)
    (o : OrderView) (h : Order.findById db id = some o) :
    Order.cancel db id reason =
      if o.row.status = "delivered" ∨ o.row.status = "cancelled" then
        (.error (.thrown ("Não é possível cancelar este pedido")), db)
      else Order.updateStatus db id ("cancelled") (some (cancelNotes reason)) := by
  unfold Order.cancel
  rw [h]

/-- The order-items insert loop of `Order.create` touches only the
order_items table (and its counter), appending one row per input line. -/
theorem insertOrderItems_spec (oid : ℚ) (items : List OrderLineInput) (db : DB) :
    (insertOrderItems oid items db).products = db.products
    ∧ (insertOrderItems oid items db).cart = db.cart
    ∧ (insertOrderItems oid items db).orders = db.orders
    ∧ ∃ rows, (insertOrderItems oid items db).order_items = db.order_items ++ rows
        ∧ rows.map (fun r => (r.order_id, r.product_id, r.quantity, r.price))
          = items.map (fun it => (oid, it.product_id, it.quantity, it.price)) := by
  induction items generalizing db with
  | nil => exact ⟨rfl, rfl, rfl, [], by simp [insertOrderItems], rfl⟩
  | cons it rest ih =>
    obtain ⟨h1, h2, h3, rows, h4, h5⟩ := ih
      { db with
        order_items := db.order_items ++
          [⟨db.nextOrderItemId, oid, it.product_id, it.quantity, it.price⟩],
        nextOrderItemId := db.nextOrderItemId + 1 }
    refine ⟨h1, h2, h3,
      ⟨db.nextOrderItemId, oid, it.product_id, it.quantity, it.price⟩ :: rows, ?_, ?_⟩
    · show (insertOrderItems oid rest _).order_items = _
      rw [h4]
      simp
    · simp [h5]

/-- Both branches of `Order.updateStatus` leave the products table as it
was. -/
theorem updateStatus_products (db : DB) (oid : ℚ) (st : String) (n : Option String) :
    (Order.updateStatus db oid st n).2.products = db.products := by
  unfold Order.updateStatus
  split <;> rfl

/-- Every path through `Order.cancel` leaves the products table as it
was. -/
theorem cancel_products (db : DB) (oid : ℚ) (r : Option String) :
    (Order.cancel db oid r).2.products = db.products := by
  cases hf : Order.findById db oid with
  | none => unfold Order.cancel; rw [hf]
  | some v =>
    rw [cancel_eq_of_findById db oid r v hf]
    by_cases hterm : v.row.status = "delivered" ∨ v.row.status = "cancelled"
    · rw [if_pos hterm]
    · rw [if_neg hterm]
      exact updateStatus_products db oid ("cancelled") (some (cancelNotes r))

/-- C1: the spec claims that checkout on a valid two-line cart (price
10.00 × qty 2 and price 5.50 × qty 1) creates exactly one Order totalling
25.50 with two frozen-price lines and clears the cart.  In the code,
`POST /orders` crashes before any write: `Cart.getByUser` is rejected by
the driver (its SQL selects `p.stock_quantity`, a column the products
schema names `stock`), the controller answers 500, the orders table stays
empty and both cart lines survive.  (Past that read, the controller would
next call `Cart.getTotal` and `Cart.clear`, which the Cart model does not
define, and `Order.create` with no `items` field.) -/
theorem checkout_validCart_crashes :
    OrderController.create dbCheckout 7 (some ("Rua das Flores, 1"))
        (some ("pix")) none
      = (.serverError (.storage ("no such column: p.stock_quantity")), dbCheckout)
    ∧ dbCheckout.orders = [] ∧ dbCheckout.cart.length = 2 := ⟨rfl, rfl, rfl⟩

/-- C2: the spec claims that checkout on a cart whose line quantity (5)
exceeds current stock (3) fails with CartInvalid carrying the violation
list and creates no Order.  The code does create no Order and leaves the
store unchanged, but the failure is a 500 storage error raised by
`Cart.getByUser` before `validate` ever runs — not the CartInvalid
response, and no violation list is carried. -/
theorem checkout_overstock_crashes :
    OrderController.create dbOverstock 7 (some ("Rua B, 2")) (some ("pix")) none
      = (.serverError (.storage ("no such column: p.stock_quantity")), dbOverstock)
    ∧ dbOverstock.orders = []
    ∧ dbOverstock.cart.map (fun c => c.quantity) = [5]
    ∧ dbOverstock.products.map (fun p => p.stock) = [3] := ⟨rfl, rfl, rfl, rfl⟩

/-- C3: the spec claims that checkout with no cart lines fails with the
dedicated EmptyCart error of step 1.  In the code the step-1 guard tests
`cartItems.length === 0` on the `{ items, summary }` object, whose
`.length` is `undefined`, so the guard can never fire (third conjunct);
on an empty cart the request instead dies earlier with the 500 storage
error from `Cart.getByUser`.  No Order is created either way. -/
theorem checkout_emptyCart_crashes :
    OrderController.create dbEmptyCart 7 (some ("Rua C, 3")) (some ("pix")) none
      = (.serverError (.storage ("no such column: p.stock_quantity")), dbEmptyCart)
    ∧ dbEmptyCart.cart = []
    ∧ (∀ v : CartView, jsStrictEqZero v.jsLength = false) :=
  ⟨rfl, rfl, fun _ => rfl⟩

/-- C4: the spec claims `addItem` twice with the same product accumulates
quantities and rejects with InsufficientStock (message carrying the
available amount) once the total exceeds stock.  In the code, for every
available product the very first `addItem` dies with the driver's
storage error — `Cart.getItem`, called before any insert, selects the
nonexistent `p.stock_quantity` column — and writes nothing, so
accumulation never happens; moreover the model's InsufficientStock
message is a fixed string with no amount in it. -/
theorem addItem_available_crashes (db : DB) (u p q : ℚ) (pr : ProductRow)
    (h : findAvailableProduct db p = some pr) :
    Cart.addItem db u p q
      = (.error (.storage ("no such column: p.stock_quantity")), db) := by
  simp only [Cart.addItem, h, getItem_error]

/-- Witness for C4: adding one unit of the available stock-3 product to
an empty cart already fails with the storage error. -/
theorem addItem_available_crashes_witness :
    findAvailableProduct dbAddItem 1 = some ⟨1, "Vestido", 10, 3, "available"⟩
    ∧ Cart.addItem dbAddItem 7 1 1
      = (.error (.storage ("no such column: p.stock_quantity")), dbAddItem) :=
  ⟨rfl, addItem_available_crashes dbAddItem 7 1 1
    ⟨1, "Vestido", 10, 3, "available"⟩ rfl⟩

/-- C5: the spec claims `validate(user)` returns valid=false plus one
human-readable violation per unavailable-product line and per over-stock
line, and an "empty cart" violation on an empty cart.  In the code
`validateCart` never returns at all: for every store and user it
propagates the storage error of `Cart.getByUser` (which also excludes
unavailable-product lines from the view, so the availability check could
never produce a violation even with the column fixed). -/
theorem validateCart_always_errors (db : DB) (u : ℚ) :
    Cart.validateCart db u
      = .error (.storage ("no such column: p.stock_quantity")) := by
  simp [Cart.validateCart, getByUser_error]

/-- C6: for every existing order, `Order.cancel` fails with the
InvalidTransition error exactly when the current status is `delivered` or
`cancelled`; on a `pending` order it succeeds, sets the status to
`cancelled`, records the reason in the notes, and leaves the payment
status unchanged. -/
theorem order_cancel_spec (db : DB) (id : ℚ) (reason : Option String)
    (o : OrderView) (h : Order.findById db id = some o) :
    ((o.row.status = "delivered" ∨ o.row.status = "cancelled") ↔
      Order.cancel db id reason
        = (.error (.thrown ("Não é possível cancelar este pedido")), db))
    ∧ (o.row.status = "pending" →
        ∃ v db', Order.cancel db id reason = (.ok (some v), db')
          ∧ v.row.status = "cancelled"
          ∧ v.row.notes = some (cancelNotes reason)
          ∧ v.row.payment_status = o.row.payment_status) := by
  obtain ⟨r0, hfind, hview⟩ : ∃ r, db.orders.find? (fun r => r.id = id) = some r
      ∧ o = ⟨r, db.order_items.filter (fun it => it.order_id = id)⟩ := by
    unfold Order.findById at h
    obtain ⟨r, hr, ho⟩ := Option.map_eq_some'.mp h
    exact ⟨r, hr, ho.symm⟩
  have hrid : r0.id = id := by
    have := List.find?_some hfind
    exact of_decide_eq_true this
  constructor
  · constructor
    · intro hterm
      rw [cancel_eq_of_findById db id reason o h, if_pos hterm]
    · intro heq
      by_contra hterm
      rw [cancel_eq_of_findById db id reason o h, if_neg hterm,
          updateStatus_valid db id ("cancelled") (some (cancelNotes reason))
            (by decide)] at heq
      simp at heq
  · intro hpend
    have hterm : ¬ (o.row.status = "delivered" ∨ o.row.status = "cancelled") := by
      rw [hpend]; decide
    rw [cancel_eq_of_findById db id reason o h, if_neg hterm,
        updateStatus_valid db id ("cancelled") (some (cancelNotes reason))
          (by decide)]
    have htruthy : jsTruthy (some (cancelNotes reason)) = true := by
      simp [jsTruthy, cancelNotes_ne_empty reason]
    have hfr : setStatusRow id ("cancelled") (some (cancelNotes reason)) r0
        = { r0 with status := "cancelled", notes := some (cancelNotes reason) } := by
      unfold setStatusRow
      rw [if_pos hrid, htruthy]
      simp
    refine ⟨⟨{ r0 with status := "cancelled", notes := some (cancelNotes reason) },
             (setStatusDB db id ("cancelled") (some (cancelNotes reason))).order_items.filter
               (fun it => it.order_id = id)⟩,
            setStatusDB db id ("cancelled") (some (cancelNotes reason)), ?_, rfl, rfl, ?_⟩
    · unfold Order.findById
      rw [show (setStatusDB db id ("cancelled") (some (cancelNotes reason))).orders
            = db.orders.map (setStatusRow id ("cancelled") (some (cancelNotes reason)))
            from rfl,
          orders_find?_map_pred db.orders _ _ ?hp, hfind]
      · simp [hfr]
      case hp =>
        intro x
        unfold setStatusRow
        by_cases hx : x.id = id <;> simp [hx]
    · simp [hview]

/-- Witness for C6: cancelling the pending order of `dbPending` with a
reason succeeds as the theorem states. -/
theorem order_cancel_spec_witness :
    Order.findById dbPending 1 = some pendingView
    ∧ (((pendingView.row.status = "delivered" ∨
          pendingView.row.status = "cancelled") ↔
        Order.cancel dbPending 1 (some ("mudei de ideia"))
          = (.error (.thrown ("Não é possível cancelar este pedido")), dbPending))
      ∧ (pendingView.row.status = "pending" →
          ∃ v db', Order.cancel dbPending 1 (some ("mudei de ideia"))
              = (.ok (some v), db')
            ∧ v.row.status = "cancelled"
            ∧ v.row.notes = some (cancelNotes (some ("mudei de ideia")))
            ∧ v.row.payment_status = pendingView.row.payment_status)) :=
  ⟨rfl, order_cancel_spec dbPending 1 (some ("mudei de ideia")) pendingView rfl⟩

/-- C7: every Cart Engine mutation preserves the invariant that every
stored cart line has quantity ≥ 1, for all inputs including quantities
≤ 0; and an update to a quantity ≤ 0 deletes the line rather than
storing a non-positive quantity.  (In the code the insert and update
write paths of `addItem`/`updateQuantity` are unreachable — both die on
the `stock_quantity` column — so only the delete paths ever write, and
those only remove lines.) -/
theorem cart_quantity_invariant (db : DB) (u p q : ℚ) (h : CartInv db) :
    CartInv (Cart.addItem db u p q).2
    ∧ CartInv (Cart.updateQuantity db u p q).2
    ∧ CartInv (Cart.removeItem db u p).2
    ∧ CartInv (Cart.clearCart db u).2
    ∧ (q ≤ 0 → ∀ c ∈ (Cart.updateQuantity db u p q).2.cart,
        ¬ (c.user_id = u ∧ c.product_id = p)) := by
  have hrem : CartInv (Cart.removeItem db u p).2 := by
    intro c hc
    rw [removeItem_cart] at hc
    exact h c (List.mem_filter.mp hc).1
  refine ⟨?_, ?_, hrem, ?_, ?_⟩
  · rw [addItem_state_eq]; exact h
  · by_cases hq : q ≤ 0
    · rw [updateQuantity_nonpos_eq db u p q hq]; exact hrem
    · rw [updateQuantity_pos_error db u p q hq]; exact h
  · intro c hc
    rw [clearCart_cart] at hc
    exact h c (List.mem_filter.mp hc).1
  · intro hq c hc
    rw [updateQuantity_nonpos_eq db u p q hq, removeItem_cart] at hc
    exact of_decide_eq_true (List.mem_filter.mp hc).2

/-- Witness for C7: the invariant holds in `dbInv` and is preserved by
every mutation at quantity 0. -/
theorem cart_quantity_invariant_witness :
    CartInv dbInv
    ∧ (CartInv (Cart.addItem dbInv 7 1 0).2
      ∧ CartInv (Cart.updateQuantity dbInv 7 1 0).2
      ∧ CartInv (Cart.removeItem dbInv 7 1).2
      ∧ CartInv (Cart.clearCart dbInv 7).2
      ∧ ((0 : ℚ) ≤ 0 → ∀ c ∈ (Cart.updateQuantity dbInv 7 1 0).2.cart,
          ¬ (c.user_id = 7 ∧ c.product_id = 1))) :=
  ⟨by intro c hc; fin_cases hc; decide,
   cart_quantity_invariant dbInv 7 1 0 (by intro c hc; fin_cases hc; decide)⟩

/-- C8: `updateQuantity(user, product, q)` with q ≤ 0 (in particular
q = 0) produces exactly the same post-state of the store as
`removeItem(user, product)` on the same initial state — the code
delegates to `removeItem` outright. -/
theorem updateQuantity_nonpos_removeItem (db : DB) (u p q : ℚ) (h : q ≤ 0) :
    (Cart.updateQuantity db u p q).2 = (Cart.removeItem db u p).2 :=
  updateQuantity_nonpos_eq db u p q h

/-- Witness for C8: at quantity 0 on `dbInv` the two post-states
coincide. -/
theorem updateQuantity_nonpos_removeItem_witness :
    ((0 : ℚ) ≤ 0)
    ∧ (Cart.updateQuantity dbInv 7 1 0).2 = (Cart.removeItem dbInv 7 1).2 :=
  ⟨by decide, updateQuantity_nonpos_removeItem dbInv 7 1 0 (by decide)⟩

/-- C9: `Order.create` is a pure append to the orders and order_items
tables: the products table (hence every product's stock) and the cart are
untouched; the one appended order row carries the caller's user, the
summed total, and the pending statuses, and the appended item rows carry
exactly the supplied product/quantity/frozen-price triples.  Moreover no
other embedded operation (the Cart mutations, `updateStatus`, `cancel`)
ever writes the products table — stock changes only through the explicit
`Product.updateStock`. -/
theorem order_create_spec (db : DB) (inp : OrderCreateInput)
    (items : List OrderLineInput) (h : inp.items = some items) :
    (Order.create db inp).2.products = db.products
    ∧ (Order.create db inp).2.cart = db.cart
    ∧ (∃ row, (Order.create db inp).2.orders = db.orders ++ [row]
        ∧ row.id = db.nextOrderId
        ∧ row.user_id = inp.user_id
        ∧ row.total_amount
            = items.foldl (fun acc it => acc + it.price * it.quantity) 0
        ∧ row.status = "pending" ∧ row.payment_status = "pending")
    ∧ (∃ rows, (Order.create db inp).2.order_items = db.order_items ++ rows
        ∧ rows.map (fun r => (r.order_id, r.product_id, r.quantity, r.price))
          = items.map (fun it => (db.nextOrderId, it.product_id, it.quantity, it.price)))
    ∧ (∀ u p q, (Cart.addItem db u p q).2.products = db.products)
    ∧ (∀ u p q, (Cart.updateQuantity db u p q).2.products = db.products)
    ∧ (∀ u p, (Cart.removeItem db u p).2.products = db.products)
    ∧ (∀ u, (Cart.clearCart db u).2.products = db.products)
    ∧ (∀ i st n, (Order.updateStatus db i st n).2.products = db.products)
    ∧ (∀ i r, (Order.cancel db i r).2.products = db.products) := by
  obtain ⟨h1, h2, h3, rows, h4, h5⟩ := insertOrderItems_spec db.nextOrderId items
    { db with
      orders := db.orders ++
        [⟨db.nextOrderId, inp.user_id,
          items.foldl (fun acc it => acc + it.price * it.quantity) 0,
          "pending", inp.shipping_address, inp.payment_method, "pending",
          inp.notes⟩],
      nextOrderId := db.nextOrderId + 1 }
  have hcr : (Order.create db inp).2 = insertOrderItems db.nextOrderId items
    { db with
      orders := db.orders ++
        [⟨db.nextOrderId, inp.user_id,
          items.foldl (fun acc it => acc + it.price * it.quantity) 0,
          "pending", inp.shipping_address, inp.payment_method, "pending",
          inp.notes⟩],
      nextOrderId := db.nextOrderId + 1 } := by
    unfold Order.create
    rw [h]
  refine ⟨by rw [hcr]; exact h1, by rw [hcr]; exact h2,
    ⟨_, by rw [hcr]; exact h3, rfl, rfl, rfl, rfl, rfl⟩,
    ⟨rows, by rw [hcr]; exact h4, h5⟩,
    fun u p q => by rw [addItem_state_eq],
    fun u p q => ?_,
    fun u p => rfl,
    fun u => rfl,
    fun i st n => updateStatus_products db i st n,
    fun i r => cancel_products db i r⟩
  by_cases hq : q ≤ 0
  · rw [updateQuantity_nonpos_eq db u p q hq]
    rfl
  · rw [updateQuantity_pos_error db u p q hq]

/-- Witness for C9: creating an order from the two frozen lines of
`inpCreate` on the `dbCheckout` store. -/
theorem order_create_spec_witness :
    inpCreate.items = some [⟨1, 2, 10⟩, ⟨2, 1, 5.5⟩]
    ∧ ((Order.create dbCheckout inpCreate).2.products = dbCheckout.products
      ∧ (Order.create dbCheckout inpCreate).2.cart = dbCheckout.cart
      ∧ (∃ row, (Order.create dbCheckout inpCreate).2.orders
            = dbCheckout.orders ++ [row]
          ∧ row.id = dbCheckout.nextOrderId
          ∧ row.user_id = inpCreate.user_id
          ∧ row.total_amount
              = List.foldl (fun acc it => acc + it.price * it.quantity) 0
                  [(⟨1, 2, 10⟩ : OrderLineInput), ⟨2, 1, 5.5⟩]
          ∧ row.status = "pending" ∧ row.payment_status = "pending")
      ∧ (∃ rows, (Order.create dbCheckout inpCreate).2.order_items
            = dbCheckout.order_items ++ rows
          ∧ rows.map (fun r => (r.order_id, r.product_id, r.quantity, r.price))
            = List.map
                (fun it => (dbCheckout.nextOrderId, it.product_id, it.quantity, it.price))
                [(⟨1, 2, 10⟩ : OrderLineInput), ⟨2, 1, 5.5⟩])
      ∧ (∀ u p q, (Cart.addItem dbCheckout u p q).2.products = dbCheckout.products)
      ∧ (∀ u p q, (Cart.updateQuantity dbCheckout u p q).2.products = dbCheckout.products)
      ∧ (∀ u p, (Cart.removeItem dbCheckout u p).2.products = dbCheckout.products)
      ∧ (∀ u, (Cart.clearCart dbCheckout u).2.products = dbCheckout.products)
      ∧ (∀ i st n, (Order.updateStatus dbCheckout i st n).2.products = dbCheckout.products)
      ∧ (∀ i r, (Order.cancel dbCheckout i r).2.products = dbCheckout.products)) :=
  ⟨rfl, order_create_spec dbCheckout inpCreate [⟨1, 2, 10⟩, ⟨2, 1, 5.5⟩] rfl⟩

/-- C10: the code reading of `updateQuantity` suggests that for an
available product with no existing cart line and a quantity within
stock it updates nothing and returns `null`.  In fact under exactly
those conditions the operation never gets that far: its stock query
(`SELECT stock_quantity FROM products ...`) is rejected by the driver,
so it raises a storage error; the store is indeed left unchanged. -/
theorem updateQuantity_absentLine (db : DB) (u p q : ℚ) (pr : ProductRow)
    (hpr : findAvailableProduct db p = some pr)
    (hnoline : findCartRow db u p = none)
    (hq : 1 ≤ q) (hstock : q ≤ pr.stock) :
    Cart.updateQuantity db u p q
      = (.error (.storage ("no such column: stock_quantity")), db) := by
  have hq' : ¬ q ≤ 0 := by linarith
  exact updateQuantity_pos_error db u p q hq'

/-- Witness for C10: quantity 1 of the available stock-3 product, with no
cart line for user 7. -/
theorem updateQuantity_absentLine_witness :
    findAvailableProduct dbNoLine 1 = some ⟨1, "Calça", 10, 3, "available"⟩
    ∧ findCartRow dbNoLine 7 1 = none
    ∧ (1 : ℚ) ≤ 1
    ∧ (1 : ℚ) ≤ (⟨1, "Calça", 10, 3, "available"⟩ : ProductRow).stock
    ∧ Cart.updateQuantity dbNoLine 7 1 1
      = (.error (.storage ("no such column: stock_quantity")), dbNoLine) :=
  ⟨rfl, rfl, by decide, by decide,
   updateQuantity_absentLine dbNoLine 7 1 1 ⟨1, "Calça", 10, 3, "available"⟩
     rfl rfl (by decide) (by decide)⟩
